import Mathlib

/-
Verification of the hospital-management data model and views
(src/hospital/models.py, src/hospital/views.py).

Dates are embedded as proleptic-Gregorian (year, month, day) triples;
datetimes as integer seconds; Python Decimal money values as rationals.
Python floor division and timedelta day extraction are Int.fdiv.
-/

namespace Hospital

/-- Calendar date, as Python datetime.date: a (year, month, day) triple
compared lexicographically. -/
structure Date where
  year : Int
  month : Nat
  day : Nat
  deriving DecidableEq, Repr

/-- Python date comparison a < b (lexicographic on year, month, day). -/
def Date.ltb (a b : Date) : Bool :=
  decide (a.year < b.year) ||
    (decide (a.year = b.year) &&
      (decide (a.month < b.month) ||
        (decide (a.month = b.month) && decide (a.day < b.day))))

/-- Bill (src/hospital/models.py:1163-1230): the stored columns the claims
read. Other declared columns (subtotal, discounts, tax, insurance fields,
administrative references) are never read by the verified properties and are
listed in billColumns below. -/
structure Bill where
  bill_number : String
  bill_date : Int
  due_date : Date
  status : String
  total_amount : ℚ
  paid_amount : ℚ
  deriving DecidableEq, Repr

/-- Bill.balance_amount (models.py:1220-1222): total_amount - paid_amount,
computed on read. -/
def Bill.balance_amount (b : Bill) : ℚ :=
  b.total_amount - b.paid_amount

/-- Bill.is_overdue (models.py:1224-1227):
status in ['pending', 'partially_paid'] and date.today() > due_date. -/
def Bill.is_overdue (b : Bill) (today : Date) : Bool :=
  (b.status == "pending" || b.status == "partially_paid") && Date.ltb b.due_date today

/-- C1: for every Bill, balance_amount is total_amount minus paid_amount, and
is_overdue holds exactly when the status is pending or partially_paid and the
current date is strictly after due_date. -/
theorem bill_balance_and_overdue (b : Bill) (today : Date) :
    b.balance_amount = b.total_amount - b.paid_amount ∧
    (b.is_overdue today = true ↔
      ((b.status = "pending" ∨ b.status = "partially_paid") ∧
        Date.ltb b.due_date today = true)) := by
  refine ⟨rfl, ?_⟩
  simp [Bill.is_overdue, Bool.and_eq_true, Bool.or_eq_true]

/-- Ward (src/hospital/models.py:170-212): the columns the claims read.
bed_capacity and current_occupancy are PositiveIntegerField (non-negative
integers); is_active comes from the BaseModel audit envelope. -/
structure Ward where
  name : String
  bed_capacity : Nat
  current_occupancy : Nat
  is_active : Bool
  deriving DecidableEq, Repr

/-- Ward.available_beds (models.py:204-206): bed_capacity - current_occupancy,
Python integer subtraction (may be negative, nothing clamps it). -/
def Ward.available_beds (w : Ward) : Int :=
  (w.bed_capacity : Int) - (w.current_occupancy : Int)

/-- Ward.occupancy_rate (models.py:208-212): 0 when bed_capacity is 0, else
(current_occupancy / bed_capacity) * 100 with Python true division. -/
def Ward.occupancy_rate (w : Ward) : ℚ :=
  if w.bed_capacity = 0 then 0
  else ((w.current_occupancy : ℚ) / (w.bed_capacity : ℚ)) * 100

/-- C2: for every Ward, occupancy_rate is 0 at zero capacity and otherwise
current_occupancy / bed_capacity * 100, and available_beds is always
bed_capacity minus current_occupancy. -/
theorem ward_occupancy_rate_and_available_beds (w : Ward) :
    w.occupancy_rate =
      (if w.bed_capacity = 0 then 0
       else ((w.current_occupancy : ℚ) / (w.bed_capacity : ℚ)) * 100) ∧
    w.available_beds = (w.bed_capacity : Int) - (w.current_occupancy : Int) :=
  ⟨rfl, rfl⟩

/-- Python tuple comparison (m1, d1) < (m2, d2): lexicographic. -/
def monthDayLtb (m1 d1 m2 d2 : Nat) : Bool :=
  decide (m1 < m2) || (decide (m1 = m2) && decide (d1 < d2))

/-- Patient (src/hospital/models.py:253-365): the fields the age property
reads. date_of_birth is DateField, estimated_age is a nullable
PositiveIntegerField (help text: if DOB unknown). -/
structure Patient where
  date_of_birth : Option Date
  estimated_age : Option Nat
  deriving DecidableEq, Repr

/-- Patient.age (models.py:345-351). The Python property first returns
estimated_age when it is truthy (non-None, non-zero) and date_of_birth is
absent; otherwise it evaluates
today.year - dob.year - ((today.month, today.day) < (dob.month, dob.day)).
With no date_of_birth and no truthy estimated_age the attribute access on
None raises, embedded here as Option.none. -/
def Patient.age (p : Patient) (today : Date) : Option Int :=
  match p.date_of_birth with
  | some dob =>
      some (today.year - dob.year -
        (if monthDayLtb today.month today.day dob.month dob.day then 1 else 0))
  | none =>
      match p.estimated_age with
      | some e => if e ≠ 0 then some (e : Int) else none
      | none => none

/-- C3: for every Patient with a date of birth, age is the year difference
reduced by one when the reference (month, day) precedes the birth (month,
day); with date_of_birth 2000-06-15 the age is 23 on 2024-06-14 and 24 on
2024-06-15. -/
theorem patient_age_from_dob (p : Patient) (dob today : Date)
    (h : p.date_of_birth = some dob) :
    p.age today =
      some (today.year - dob.year -
        (if monthDayLtb today.month today.day dob.month dob.day then 1 else 0)) ∧
    Patient.age ⟨some ⟨2000, 6, 15⟩, none⟩ ⟨2024, 6, 14⟩ = some 23 ∧
    Patient.age ⟨some ⟨2000, 6, 15⟩, none⟩ ⟨2024, 6, 15⟩ = some 24 := by
  refine ⟨?_, by decide, by decide⟩
  simp [Patient.age, h]

/-- Witness for patient_age_from_dob at the spec scenario date of birth. -/
theorem patient_age_from_dob_witness :
    Patient.age ⟨some ⟨2000, 6, 15⟩, none⟩ ⟨2024, 6, 14⟩ = some 23 := by
  exact (patient_age_from_dob ⟨some ⟨2000, 6, 15⟩, none⟩ ⟨2000, 6, 15⟩
    ⟨2024, 6, 14⟩ rfl).1.trans (by decide)

/-- Admission (src/hospital/models.py:369-466): the fields the claims read.
admission_date and discharge_date are DateTimeField values, embedded as
seconds; status draws from ADMISSION_STATUS. -/
structure Admission where
  admission_date : Int
  discharge_date : Option Int
  status : String
  deriving DecidableEq, Repr

/-- Python timedelta .days between two datetimes held as seconds: floor of the
difference over 86400 seconds, as Python floor division. -/
def daysBetween (a b : Int) : Int :=
  Int.fdiv (b - a) 86400

/-- Admission.length_of_stay (models.py:455-459):
(discharge_date - admission_date).days when discharged, else
(timezone.now() - admission_date).days. The current instant is passed
explicitly as now. -/
def Admission.length_of_stay (a : Admission) (now : Int) : Int :=
  match a.discharge_date with
  | some d => daysBetween a.admission_date d
  | none => daysBetween a.admission_date now

/-- C4: for every Admission with a discharge_date, length_of_stay is the
whole-day difference from admission_date to discharge_date; without one it is
the whole-day difference from admission_date to the current instant. -/
theorem admission_length_of_stay_correct (a : Admission) (now : Int) :
    (∀ d, a.discharge_date = some d →
      a.length_of_stay now = daysBetween a.admission_date d) ∧
    (a.discharge_date = none →
      a.length_of_stay now = daysBetween a.admission_date now) := by
  constructor
  · intro d hd
    simp [Admission.length_of_stay, hd]
  · intro hd
    simp [Admission.length_of_stay, hd]

/-- Witness for admission_length_of_stay_correct: a two-day stay ending at
discharge, and an open admission measured against now. -/
theorem admission_length_of_stay_witness :
    Admission.length_of_stay ⟨0, some 180000, "discharged"⟩ 0 = 2 ∧
    Admission.length_of_stay ⟨0, none, "admitted"⟩ 90000 = 1 := by
  constructor
  · exact ((admission_length_of_stay_correct ⟨0, some 180000, "discharged"⟩ 0).1
      180000 rfl).trans (by decide)
  · exact ((admission_length_of_stay_correct ⟨0, none, "admitted"⟩ 90000).2
      rfl).trans (by decide)

/-- PrescriptionItem (src/hospital/models.py:938-973): the fields its save
method reads and writes. unit_price and total_price are DecimalField values,
quantities PositiveIntegerField. -/
structure PrescriptionItem where
  quantity_prescribed : Nat
  quantity_dispensed : Nat
  unit_price : ℚ
  total_price : ℚ
  deriving DecidableEq, Repr

/-- PrescriptionItem.save (models.py:966-968): sets
total_price = quantity_dispensed * unit_price, then stores the row. -/
def PrescriptionItem.save (it : PrescriptionItem) : PrescriptionItem :=
  { it with total_price := (it.quantity_dispensed : ℚ) * it.unit_price }

/-- C9: after every save the stored total_price is quantity_dispensed times
unit_price, whatever value total_price held before; reading total_price
without saving returns the stored value unchanged (no recomputation on
read). -/
theorem prescription_item_save_total_price (it : PrescriptionItem) (q : ℚ) :
    (PrescriptionItem.save { it with total_price := q }).total_price =
      (it.quantity_dispensed : ℚ) * it.unit_price ∧
    ({ it with total_price := q } : PrescriptionItem).total_price = q :=
  ⟨rfl, rfl⟩

/-- User (src/hospital/models.py:22-118): the account fields the verified
views read. role draws from ROLE_CHOICES; is_active is the framework active
flag checked by authentication and the staff filters. -/
structure User where
  username : String
  role : String
  is_active : Bool
  deriving DecidableEq, Repr

/-- Dashboard total_staff (src/hospital/views.py:48, same filter as
staff_list at views.py:184):
User.objects.filter(is_active=True).exclude(role='admin').count(). -/
def total_staff (users : List User) : Nat :=
  ((users.filter (fun u => u.is_active)).filter (fun u => !(u.role == "admin"))).length

/-- C10: the staff count is exactly the number of active accounts whose role
is not admin; an active admin account does not change it, an inactive account
does not change it, and an active non-admin account raises it by one. -/
theorem dashboard_total_staff_counts (users : List User) (u : User) :
    total_staff users = users.countP (fun v => v.is_active && !(v.role == "admin")) ∧
    (u.role = "admin" → total_staff (u :: users) = total_staff users) ∧
    (u.is_active = false → total_staff (u :: users) = total_staff users) ∧
    (u.is_active = true → u.role ≠ "admin" →
      total_staff (u :: users) = total_staff users + 1) := by
  have key : ∀ us : List User,
      total_staff us = us.countP (fun v => v.is_active && !(v.role == "admin")) := by
    intro us
    simp [total_staff, List.filter_filter, List.countP_eq_length_filter,
      Bool.and_comm]
  refine ⟨key users, ?_, ?_, ?_⟩
  · intro hrole
    simp [key, List.countP_cons, hrole]
  · intro hact
    simp [key, List.countP_cons, hact]
  · intro hact hrole
    simp [key, List.countP_cons, hact, beq_eq_false_iff_ne, hrole]

/-- Witness for dashboard_total_staff_counts: one active nurse counts, an
active admin and an inactive nurse do not. -/
theorem dashboard_total_staff_witness :
    total_staff [⟨"a", "admin", true⟩, ⟨"n", "nurse", true⟩] = 1 ∧
    total_staff [⟨"m", "nurse", false⟩, ⟨"n", "nurse", true⟩] = 1 := by
  constructor
  · exact ((dashboard_total_staff_counts [⟨"n", "nurse", true⟩]
      ⟨"a", "admin", true⟩).2.1 rfl).trans (by decide)
  · exact ((dashboard_total_staff_counts [⟨"n", "nurse", true⟩]
      ⟨"m", "nurse", false⟩).2.2.1 rfl).trans (by decide)

/-- Outcome of one POST to the login view: the session created by the
framework login call (none when no login call was made), the redirect target,
and the error message passed to the messages framework. -/
structure LoginOutcome where
  session : Option String
  redirectTo : Option String
  errorMsg : Option String
  deriving DecidableEq, Repr

/-- login_view (src/hospital/views.py:18-34) on a POST. The framework
authenticate call is an external collaborator (spec section 6); its result -
some user on valid credentials, none otherwise - is the auth argument. The
view logs in and redirects to the dashboard only when the role is admin, and
otherwise records an error message and re-renders the form with no login
call. -/
def login_view (auth : Option User) : LoginOutcome :=
  match auth with
  | some u =>
      if u.role == "admin" then ⟨some u.username, some "dashboard", none⟩
      else ⟨none, none, some "Access denied. Admin privileges required."⟩
  | none => ⟨none, none, some "Invalid username or password."⟩

/-- C7: a session is created exactly when the credentials are valid and the
role is admin, and then the user is redirected to the dashboard; invalid
credentials or a non-admin role yield an error message, no session and no
redirect. -/
theorem login_grants_admin_only (auth : Option User) :
    ((login_view auth).session.isSome = true ↔
      ∃ u, auth = some u ∧ u.role = "admin") ∧
    (∀ u, auth = some u → u.role = "admin" →
      login_view auth = ⟨some u.username, some "dashboard", none⟩) ∧
    (∀ u, auth = some u → u.role ≠ "admin" →
      login_view auth = ⟨none, none, some "Access denied. Admin privileges required."⟩) ∧
    (auth = none →
      login_view auth = ⟨none, none, some "Invalid username or password."⟩) := by
  refine ⟨?_, ?_, ?_, ?_⟩
  · cases auth with
    | none => simp [login_view]
    | some u =>
        by_cases hrole : u.role = "admin" <;> simp [login_view, hrole]
  · intro u hu hrole
    subst hu
    simp [login_view, hrole]
  · intro u hu hrole
    subst hu
    simp [login_view, hrole]
  · intro h
    subst h
    rfl

/-- Witness for login_grants_admin_only: a valid admin login reaches the
dashboard, a valid non-admin login is denied. -/
theorem login_grants_admin_only_witness :
    login_view (some ⟨"root", "admin", true⟩) =
      ⟨some "root", some "dashboard", none⟩ ∧
    login_view (some ⟨"n", "nurse", true⟩) =
      ⟨none, none, some "Access denied. Admin privileges required."⟩ := by
  constructor
  · exact (login_grants_admin_only (some ⟨"root", "admin", true⟩)).2.1
      ⟨"root", "admin", true⟩ rfl rfl
  · exact (login_grants_admin_only (some ⟨"n", "nurse", true⟩)).2.2.1
      ⟨"n", "nurse", true⟩ rfl (by decide)

/-- Appointment (src/hospital/models.py:608-686): the columns in the
unique_together declaration, plus the unique appointment_number. doctor is
the referenced account's key; appointment_time is the TimeField as minutes
since midnight. -/
structure Appointment where
  appointment_number : String
  doctor : String
  appointment_date : Date
  appointment_time : Nat
  deriving DecidableEq, Repr

/-- The (doctor, appointment_date, appointment_time) triple constrained by
Appointment.Meta.unique_together (models.py:683-684). -/
def Appointment.slot (a : Appointment) : String × Date × Nat :=
  (a.doctor, a.appointment_date, a.appointment_time)

/-- Two appointments collide when their constrained triples are equal. -/
def sameSlot (a b : Appointment) : Bool :=
  decide (a.slot = b.slot)

/-- Modelled from the spec: the database INSERT under the unique_together
constraint on (doctor, appointment_date, appointment_time)
(models.py:683-684, spec sections 3 and 7) - the constraint declaration is in
src but its enforcement lives in the relational store: an insert whose triple
matches a stored row fails with a uniqueness violation, otherwise the row is
appended. -/
def insertAppointment (store : List Appointment) (a : Appointment) :
    Except String (List Appointment) :=
  if store.any (fun b => sameSlot b a) then
    Except.error "UNIQUE constraint failed: doctor, appointment_date, appointment_time"
  else
    Except.ok (store ++ [a])

/-- The stored table after an attempted insert: unchanged when the store
rejected the row. -/
def tableAfterInsert (store : List Appointment) (a : Appointment) :
    List Appointment :=
  match insertAppointment store a with
  | Except.ok s => s
  | Except.error _ => store

/-- No two stored appointments share a (doctor, date, time) triple. -/
def uniqueSlots (store : List Appointment) : Prop :=
  store.Pairwise (fun a b => a.slot ≠ b.slot)

/-- C8: inserting an appointment whose (doctor, date, time) triple is already
stored is rejected and leaves the table unchanged, and a successful insert
preserves the at-most-one-per-triple invariant. -/
theorem appointment_double_booking_rejected (store : List Appointment)
    (a : Appointment) :
    ((∃ b ∈ store, b.slot = a.slot) →
      insertAppointment store a =
        Except.error "UNIQUE constraint failed: doctor, appointment_date, appointment_time" ∧
      tableAfterInsert store a = store) ∧
    (∀ s, insertAppointment store a = Except.ok s →
      uniqueSlots store → uniqueSlots s) := by
  constructor
  · intro hex
    have hany : store.any (fun b => sameSlot b a) = true := by
      rcases hex with ⟨b, hb, hslot⟩
      exact List.any_eq_true.mpr ⟨b, hb, by simp [sameSlot, hslot]⟩
    constructor
    · simp [insertAppointment, hany]
    · simp [tableAfterInsert, insertAppointment, hany]
  · intro s hs hstore
    have hany : store.any (fun b => sameSlot b a) = false := by
      by_contra hc
      have : store.any (fun b => sameSlot b a) = true := by
        cases h : store.any (fun b => sameSlot b a) with
        | true => rfl
        | false => exact absurd h hc
      simp [insertAppointment, this] at hs
    have hs' : s = store ++ [a] := by
      simp [insertAppointment, hany] at hs
      exact hs.symm
    subst hs'
    have hne : ∀ b ∈ store, b.slot ≠ a.slot := by
      intro b hb
      have := List.any_eq_false.mp hany b hb
      simpa [sameSlot] using this
    refine List.pairwise_append.mpr ⟨hstore, List.pairwise_singleton _ _, ?_⟩
    intro b hb c hc
    have hcs : c = a := List.mem_singleton.mp hc
    subst hcs
    exact hne b hb

/-- Witness for appointment_double_booking_rejected: the spec scenario, a
second appointment for the same doctor on 2025-03-01 at 09:00 is rejected,
and inserting into an empty table succeeds keeping slots unique. -/
theorem appointment_double_booking_witness :
    insertAppointment [⟨"A1", "D1", ⟨2025, 3, 1⟩, 540⟩]
        ⟨"A2", "D1", ⟨2025, 3, 1⟩, 540⟩ =
      Except.error "UNIQUE constraint failed: doctor, appointment_date, appointment_time" ∧
    uniqueSlots [⟨"A1", "D1", ⟨2025, 3, 1⟩, 540⟩] := by
  constructor
  · exact ((appointment_double_booking_rejected [⟨"A1", "D1", ⟨2025, 3, 1⟩, 540⟩]
      ⟨"A2", "D1", ⟨2025, 3, 1⟩, 540⟩).1
      ⟨⟨"A1", "D1", ⟨2025, 3, 1⟩, 540⟩, by decide, rfl⟩).1
  · exact (appointment_double_booking_rejected []
      ⟨"A1", "D1", ⟨2025, 3, 1⟩, 540⟩).2 _ rfl List.Pairwise.nil

/-- The database columns of the Bill model, transcribed from the field
declarations at src/hospital/models.py:1163-1218 together with the BaseModel
audit envelope (models.py:9-19). balance_amount and is_overdue are Python
properties, not columns, so they are absent. -/
def billColumns : List String :=
  ["id", "created_at", "updated_at", "created_by", "updated_by", "is_active",
   "bill_number", "patient", "admission", "appointment",
   "bill_date", "bill_type", "due_date", "status",
   "subtotal", "discount_amount", "discount_percentage", "tax_amount",
   "total_amount", "paid_amount",
   "insurance_claim_number", "insurance_approved_amount",
   "insurance_paid_amount", "generated_by", "approved_by", "notes"]

/-- Value of a numeric Bill column on a row. Only the columns the verified
views aggregate are carried by the embedded Bill structure; the remaining
declared columns are never summed by any view in src. -/
def billNumericValue (b : Bill) : String → ℚ
  | "total_amount" => b.total_amount
  | "paid_amount" => b.paid_amount
  | _ => 0

/-- The relational-mapper aggregate Sum(field) over a list of Bill rows, as
called at src/hospital/views.py:74-81: a field name that is not a declared
column of the model cannot be resolved and raises FieldError at the query;
over an empty row set SQL SUM yields NULL, surfaced as none. -/
def sumAggregate (bills : List Bill) (field : String) :
    Except String (Option ℚ) :=
  if billColumns.contains field then
    Except.ok
      (if bills.isEmpty then none
       else some ((bills.map (fun b => billNumericValue b field)).sum))
  else
    Except.error ("FieldError: Cannot resolve keyword " ++ field ++ " into field")

/-- dashboard pending_bills (src/hospital/views.py:79-81):
Bill.objects.filter(status__in=['pending', 'partially_paid'])
.aggregate(total=Sum('balance_amount'))['total'] or 0. -/
def dashboard_pending_bills (bills : List Bill) : Except String ℚ :=
  match sumAggregate
      (bills.filter (fun b => b.status == "pending" || b.status == "partially_paid"))
      "balance_amount" with
  | Except.ok o => Except.ok (o.getD 0)
  | Except.error e => Except.error e

/-- Modelled from the spec: the outstanding-balance figure the dashboard is
specified to show - the sum of balance_amount over bills whose status is
pending or partially_paid, 0 when no such bill exists (spec sections 4.3 and
8). -/
def outstandingBalanceSpec (bills : List Bill) : ℚ :=
  ((bills.filter (fun b => b.status == "pending" || b.status == "partially_paid")).map
    Bill.balance_amount).sum

/-- C5: the dashboard pending-bills aggregation names balance_amount, which
is a Python property and not a database column, so every dashboard request
raises FieldError instead of producing the specified sum; on a single pending
bill with total 100 and paid 40 the specified figure is 60 while the code
errors, and the error is independent of the stored bills. -/
theorem dashboard_pending_bills_field_error :
    dashboard_pending_bills [⟨"B001", 0, ⟨2025, 1, 1⟩, "pending", 100, 40⟩] =
      Except.error "FieldError: Cannot resolve keyword balance_amount into field" ∧
    outstandingBalanceSpec [⟨"B001", 0, ⟨2025, 1, 1⟩, "pending", 100, 40⟩] = 60 ∧
    ∀ bills : List Bill,
      dashboard_pending_bills bills =
        Except.error "FieldError: Cannot resolve keyword balance_amount into field" := by
  refine ⟨?_, ?_, ?_⟩
  · rfl
  · norm_num [outstandingBalanceSpec, Bill.balance_amount]
  · intro bills
    unfold dashboard_pending_bills sumAggregate
    rw [if_neg (by decide)]
    rfl

/-- Days since 1970-01-01 of a proleptic-Gregorian date, the standard
civil-calendar conversion written with floor division; this is the ordinal
arithmetic Python date objects use for timedelta addition and
subtraction. -/
def daysFromCivil (dt : Date) : Int :=
  let y : Int := if dt.month ≤ 2 then dt.year - 1 else dt.year
  let m : Int := (dt.month : Int)
  let d : Int := (dt.day : Int)
  let era : Int := Int.fdiv y 400
  let yoe : Int := y - era * 400
  let doy : Int := Int.fdiv (153 * (m + (if m > 2 then -3 else 9)) + 2) 5 + d - 1
  let doe : Int := yoe * 365 + Int.fdiv yoe 4 - Int.fdiv yoe 100 + doy
  era * 146097 + doe - 719468

/-- Civil date of a day count since 1970-01-01, inverse of daysFromCivil. -/
def civilFromDays (z0 : Int) : Date :=
  let z : Int := z0 + 719468
  let era : Int := Int.fdiv z 146097
  let doe : Int := z - era * 146097
  let yoe : Int :=
    Int.fdiv (doe - Int.fdiv doe 1460 + Int.fdiv doe 36524 - Int.fdiv doe 146096) 365
  let y : Int := yoe + era * 400
  let doy : Int := doe - (365 * yoe + Int.fdiv yoe 4 - Int.fdiv yoe 100)
  let mp : Int := Int.fdiv (5 * doy + 2) 153
  let d : Int := doy - Int.fdiv (153 * mp + 2) 5 + 1
  let m : Int := mp + (if mp < 10 then 3 else -9)
  ⟨y + (if m ≤ 2 then 1 else 0), m.toNat, d.toNat⟩

/-- Python date + timedelta(days=n). -/
def Date.addDays (dt : Date) (n : Int) : Date :=
  civilFromDays (daysFromCivil dt + n)

/-- Python date.replace(day=d). -/
def Date.replaceDay (dt : Date) (d : Nat) : Date :=
  ⟨dt.year, dt.month, d⟩

/-- month_start of bucket i (src/hospital/views.py:255):
today.replace(day=1) - timedelta(days=30*i). -/
def monthStart (today : Date) (i : Nat) : Date :=
  (today.replaceDay 1).addDays (-(30 * (i : Int)))

/-- month_end of bucket i (src/hospital/views.py:256):
(month_start + timedelta(days=32)).replace(day=1) - timedelta(days=1). -/
def monthEnd (today : Date) (i : Nat) : Date :=
  (((monthStart today i).addDays 32).replaceDay 1).addDays (-1)

/-- Python strftime %b month abbreviation. -/
def monthAbbrev : Nat → String
  | 1 => "Jan" | 2 => "Feb" | 3 => "Mar" | 4 => "Apr"
  | 5 => "May" | 6 => "Jun" | 7 => "Jul" | 8 => "Aug"
  | 9 => "Sep" | 10 => "Oct" | 11 => "Nov" | 12 => "Dec"
  | _ => ""

/-- strftime('%b %Y') as used for the chart month labels
(src/hospital/views.py:261). -/
def monthLabel (dt : Date) : String :=
  monthAbbrev dt.month ++ " " ++ toString dt.year

/-- Calendar day of an admission's DateTimeField value, for the
admission_date__date lookups. -/
def admissionDateOrdinal (a : Admission) : Int :=
  Int.fdiv a.admission_date 86400

/-- admission_date__date__range=[s, e]: the admission's date lies in the
inclusive range. -/
def inDateRange (ord : Int) (s e : Date) : Bool :=
  decide (daysFromCivil s ≤ ord) && decide (ord ≤ daysFromCivil e)

/-- One row of a chart payload: the three row shapes the endpoint emits. -/
inductive ChartRow where
  | month (label : String) (count : Nat)
  | dept (name : String) (patient_count : Nat)
  | ward (name : String) (bed_capacity : Nat) (current_occupancy : Nat)
  deriving DecidableEq, Repr

/-- The monthly_admissions rows (src/hospital/views.py:253-264): six
30-day-stepped month buckets, counted, then reversed. -/
def monthlyAdmissionRows (adms : List Admission) (today : Date) : List ChartRow :=
  ((List.range 6).map (fun i =>
    ChartRow.month (monthLabel (monthStart today i))
      (adms.countP (fun a =>
        inDateRange (admissionDateOrdinal a) (monthStart today i) (monthEnd today i))))).reverse

/-- Department (src/hospital/models.py:120-146): the columns the chart
endpoint reads. -/
structure Department where
  name : String
  is_active : Bool
  deriving DecidableEq, Repr

/-- The reverse relation names declared on Department by foreign keys in
src/hospital/models.py (related_name values at lines 151, 188, 639, 668, 707
and 982). No foreign key in the source targets Department with related_name
'admissions', and the Admission model has no department field. -/
def departmentReverseRelations : List String :=
  ["staff_assignments", "wards", "appointments", "medical_records",
   "referral_appointments", "laboratories"]

/-- Stored records the chart endpoint queries. -/
structure DB where
  admissions : List Admission
  departments : List Department
  wards : List Ward
  deriving Repr

/-- The department_patients annotation (src/hospital/views.py:268-270):
Count('admissions__patient', filter=Q(admissions__status='admitted'))
resolved against Department. The relational mapper resolves 'admissions'
among Department's fields and reverse relations and raises FieldError when it
is absent; with the relations the source declares the guard is false, so the
counting branch is unreachable and the annotation always errors. -/
def annotateDeptPatientCounts (db : DB) : Except String (List ChartRow) :=
  if departmentReverseRelations.contains "admissions" then
    Except.ok (db.departments.map (fun dep => ChartRow.dept dep.name 0))
  else
    Except.error "FieldError: Cannot resolve keyword admissions into field"

/-- An HTTP response of the chart endpoint: a JSON body with a data key, a
JSON body with an error key, or an unhandled exception propagating to the
framework's server-error page. -/
inductive HttpResponse where
  | jsonOk (rows : List ChartRow) (status : Nat)
  | jsonError (msg : String) (status : Nat)
  | serverError (msg : String)
  deriving DecidableEq, Repr

/-- chart_data (src/hospital/views.py:248-278): dispatch on chart_type;
recognized kinds answer a data payload with status 200, anything else the
error payload with status 400. -/
def chart_data (db : DB) (today : Date) (chart_type : String) : HttpResponse :=
  if chart_type == "monthly_admissions" then
    HttpResponse.jsonOk (monthlyAdmissionRows db.admissions today) 200
  else if chart_type == "department_patients" then
    match annotateDeptPatientCounts db with
    | Except.ok rows => HttpResponse.jsonOk (rows.take 5) 200
    | Except.error e => HttpResponse.serverError e
  else if chart_type == "ward_occupancy" then
    HttpResponse.jsonOk
      (((db.wards.filter (fun w => w.is_active)).take 6).map
        (fun w => ChartRow.ward w.name w.bed_capacity w.current_occupancy)) 200
  else
    HttpResponse.jsonError "Invalid chart type" 400

/-- C6: on a concrete store and date, monthly_admissions and ward_occupancy
answer data payloads with status 200 and an unrecognized kind answers the
invalid-chart-type error with status 400, but department_patients - a
recognized kind the claim says answers data - raises FieldError, because no
relation named admissions exists on Department. -/
theorem chart_data_department_patients_raises :
    chart_data
        ⟨[⟨1740787200, none, "admitted"⟩], [⟨"Surgery", true⟩],
          [⟨"Ward A", 10, 4, true⟩]⟩
        ⟨2025, 3, 1⟩ "department_patients" =
      HttpResponse.serverError "FieldError: Cannot resolve keyword admissions into field" ∧
    (∃ rows, chart_data
        ⟨[⟨1740787200, none, "admitted"⟩], [⟨"Surgery", true⟩],
          [⟨"Ward A", 10, 4, true⟩]⟩
        ⟨2025, 3, 1⟩ "monthly_admissions" = HttpResponse.jsonOk rows 200) ∧
    (∃ rows, chart_data
        ⟨[⟨1740787200, none, "admitted"⟩], [⟨"Surgery", true⟩],
          [⟨"Ward A", 10, 4, true⟩]⟩
        ⟨2025, 3, 1⟩ "ward_occupancy" = HttpResponse.jsonOk rows 200) ∧
    chart_data
        ⟨[⟨1740787200, none, "admitted"⟩], [⟨"Surgery", true⟩],
          [⟨"Ward A", 10, 4, true⟩]⟩
        ⟨2025, 3, 1⟩ "bogus" =
      HttpResponse.jsonError "Invalid chart type" 400 := by
  refine ⟨rfl, ⟨_, rfl⟩, ⟨_, rfl⟩, rfl⟩

end Hospital
